import Mathlib

/-!
Shallow embedding of the generic-resource layer of the repository
(`flask_restplus_patched/generics/base.py` and `flask_restplus_patched/utils.py`).

Modelling conventions:
* Decorators produced by the namespace (`namespace.response(...)`,
  `namespace.parameters(...)`, `namespace.permission_required(...)`) are modelled
  as values of the inductive `Deco`, parametrised by the types `P` of parameter
  validators, `R` of schema objects, and `Pm` of permission-check instances.
* A resource class is a record of its declared attributes (`ResourceCls`); the
  Python class attributes `pagination_class`, `parameters` are `None` or a
  class, modelled as `Option (Unit → _)` where applying to `()` models
  instantiation (`cls.pagination_class()`); `permission_classes` is `None` or a
  list, and its Python truthiness (`None` and `[]` are falsy) is modelled by the
  empty list.
* Python dictionaries holding the per-verb settings are records with `Option`
  fields: a key is present iff the field is `some`.
* Querysets are modelled as lists of entities (`.offset(o)` is `List.drop o`,
  `.limit(l)` is `List.take l`); the database session is an explicit state.
-/

/-- Handler-wrapping decorators obtainable from the namespace abstraction:
`namespace.response(code, model)`, `namespace.parameters(validator)` and
`namespace.permission_required(check)`. -/
inductive Deco (P R Pm : Type) where
  | response (code : Option Nat) (model : Option R)
  | parameters (par : P)
  | permission_required (perm : Pm)
  deriving DecidableEq, Repr

/-- Declared attributes of a generic resource class (base.py lines 33-36 and
103): `schemaMany` is the value `cls.schema(many=True)` used by the list
metadata, `schemaOne` the value `self.get_schema()` used by the create
metadata; `pagination_class` and `parameters` are `None` or an instantiable
class; `permission_classes` is the declared list (with `None` collapsed to
`[]`, matching Python truthiness). -/
structure ResourceCls (P Pm R : Type) where
  schemaMany : R
  schemaOne : R
  pagination_class : Option (Unit → P)
  parameters : Option (Unit → P)
  permission_classes : List (Unit → Pm)

/-- Settings dictionary built by `ListAPIResource.get_method_input_output_settings`
(base.py lines 173-204): the `response_schemas` key is always present, the
`parameters` and `permissions` keys are optional. -/
structure ListSettings (P R Pm : Type) where
  response_schemas : List (Deco P R Pm)
  parameters : Option (Deco P R Pm)
  permissions : Option (List (Deco P R Pm))
  deriving DecidableEq, Repr

/-- Embeds `ListAPIResource.get_method_input_output_settings` (base.py lines
173-204): always two response entries (a bare 400 and a 200 carrying
`cls.schema(many=True)`); under `if cls.pagination_class or cls.parameters`,
the `parameters` key is set from `pagination_class` if that is non-null, else
from `parameters`; the `permissions` key is set iff `cls.permission_classes`
is truthy. -/
def get_method_input_output_settings (cls : ResourceCls P Pm R) : ListSettings P R Pm :=
  let settings : ListSettings P R Pm :=
    { response_schemas :=
        [Deco.response (some 400) none, Deco.response none (some cls.schemaMany)],
      parameters := none,
      permissions := none }
  let settings :=
    if cls.pagination_class.isSome || cls.parameters.isSome then
      match cls.pagination_class with
      | some pag => { settings with parameters := some (Deco.parameters (pag ())) }
      | none =>
        match cls.parameters with
        | some par => { settings with parameters := some (Deco.parameters (par ())) }
        | none => settings
    else settings
  if cls.permission_classes.isEmpty then settings
  else
    { settings with
        permissions :=
          some (cls.permission_classes.map (fun perm => Deco.permission_required (perm ()))) }

/-- Embeds `ListAPIResource._get_method_decorators` (base.py lines 206-212).
The Python right-hand side
`settings[...] + [settings[...]] if c1 else [] + settings[...] if c2 else []`
is, by the precedence of the Python conditional expression, parsed as
`(responses + [parameters]) if c1 else (([] + permissions) if c2 else [])`;
the embedding reproduces exactly that parse. -/
def _get_method_decorators (cls : ResourceCls P Pm R) : List (Deco P R Pm) :=
  let settings := get_method_input_output_settings cls
  match settings.parameters with
  | some par => settings.response_schemas ++ [par]
  | none =>
    match settings.permissions with
    | some perms => [] ++ perms
    | none => []

/-- Keyword arguments of one raw response entry in
`CreateAPIResource.post_method_settings` (base.py lines 261-264): the dicts
`\x7b'code': 400\x7d` and `\x7b'code': 200, 'model': schema\x7d`. -/
structure ResponseKwargs (R : Type) where
  code : Nat
  model : Option R
  deriving DecidableEq, Repr

/-- Settings dictionary built by `CreateAPIResource.post_method_settings`
(base.py lines 259-282). -/
structure CreateSettings (P R Pm : Type) where
  response_schemas : List (ResponseKwargs R)
  parameters : Option P
  permissions : Option (List Pm)
  deriving DecidableEq, Repr

/-- Embeds `CreateAPIResource.post_method_settings` (base.py lines 259-282):
always a raw 400 entry and a raw 200 entry carrying `self.get_schema()`; the
`parameters` key is set iff `self.parameters` is truthy, the `permissions` key
iff `self.permission_classes` is truthy. -/
def post_method_settings (self : ResourceCls P Pm R) : CreateSettings P R Pm :=
  let settings : CreateSettings P R Pm :=
    { response_schemas :=
        [{ code := 400, model := none }, { code := 200, model := some self.schemaOne }],
      parameters := none,
      permissions := none }
  let settings :=
    match self.parameters with
    | some par => { settings with parameters := some (par ()) }
    | none => settings
  if self.permission_classes.isEmpty then settings
  else
    { settings with
        permissions := some (self.permission_classes.map (fun perm => perm ())) }

/-- Embeds `CreateAPIResource._post_method_decorators` (base.py lines 284-294).
As in `_get_method_decorators`, the Python conditional-expression precedence
parses the right-hand side as
`(mapped responses + [parameters decorator]) if c1 else (([] + mapped permissions) if c2 else [])`,
and the embedding reproduces exactly that parse. -/
def _post_method_decorators (self : ResourceCls P Pm R) : List (Deco P R Pm) :=
  let settings := post_method_settings self
  match settings.parameters with
  | some par =>
    (settings.response_schemas.map (fun resp => Deco.response (some resp.code) resp.model)) ++
      [Deco.parameters par]
  | none =>
    match settings.permissions with
    | some perms => [] ++ perms.map (fun perm => Deco.permission_required perm)
    | none => []

/-- Embeds `bulk_decorate` (utils.py lines 6-21): iterates over
`reversed(decorators)` and rebinds `func = d(func)` at every step; `α` plays
the role of the handler type, a decorator is a self-map of handlers. -/
def bulk_decorate (decorators : List (α → α)) (func : α) : α :=
  decorators.reverse.foldl (fun f d => d f) func

/-- Single-quote character, used to render the Python assertion messages. -/
def singleQuote : String := (Char.ofNat 39).toString

/-- Message of the assertion in `GenericResource.get_queryset` (base.py lines
76-80), with the class name substituted for the format placeholder. -/
def queryset_assert_message (className : String) : String :=
  singleQuote ++ className ++ singleQuote ++
    " should either include a `queryset` attribute, or override the `get_queryset()` method."

/-- Message of the assertion in `ListAPIResource._paginate` (base.py lines
157-161); the second placeholder renders `type(self.pagination_class)`, which
in the only failing branch (a null `pagination_class`) is the none type. -/
def pagination_assert_message (className : String) : String :=
  singleQuote ++ className ++ singleQuote ++
    " should both include a `pagination_class` attribute and it must be an instance of `Paramaters` (now " ++
    singleQuote ++ "NoneType" ++ singleQuote ++ ")"

/-- A declared data model; `query` is the full queryable collection
`model.query`, modelled as the list of stored entities. -/
structure Model (E : Type) where
  query : List E

/-- Runtime view of a `GenericResource` (base.py lines 28-95): the class name
(used in assertion messages) and the declared `model`, null or present. -/
structure GenericRes (E : Type) where
  className : String
  model : Option (Model E)

/-- Embeds `GenericResource.get_queryset` (base.py lines 71-83): asserts that
`model` is non-null (a failed Python assert is modelled as `Except.error`
carrying the assertion message) and returns `self.model.query`. -/
def GenericRes.get_queryset (self : GenericRes E) : Except String (List E) :=
  match self.model with
  | none => Except.error (queryset_assert_message self.className)
  | some m => Except.ok m.query

/-- Result of a marshmallow dump: the `.data` and `.errors` attributes of the
`MarshalResult`; the Python truthiness test `if collection.errors` is the
non-emptiness of the error list. -/
structure DumpResult (B Er : Type) where
  data : B
  errors : List Er
  deriving DecidableEq, Repr

/-- An HTTP response value as built by `flask.jsonify`: a body and a status. -/
structure Response (β : Type) where
  body : β
  status : Nat
  deriving DecidableEq, Repr

/-- Models `flask.jsonify`: builds a response with the given body and status
(the call sites pass 400 explicitly or rely on the flask default of 200,
which the embedding passes explicitly). -/
def jsonify (body : β) (status : Nat) : Response β :=
  { body := body, status := status }

/-- Runtime view of a `ListAPIResource` (base.py lines 98-171): on top of the
generic attributes, `schema_dump` models
`self.get_schema()(many=True).dump(queryset, many=True)`, and
`pagination_class` models `self.pagination_class().dump(args).data`, a
function of the raw pagination arguments returning the validated
`(offset, limit)` pair, or null when no pagination class is declared. -/
structure ListRes (A E B Er : Type) extends GenericRes E where
  schema_dump : List E → DumpResult B Er
  pagination_class : Option (Option A → Nat × Nat)

/-- Embeds `ListAPIResource._paginate` (base.py lines 152-171): asserts a
truthy `pagination_class`, validates the arguments through it to obtain
`offset` and `limit`, takes the passed queryset (falling back to
`self.get_queryset()` when the passed one is null), and applies
`.offset(offset).limit(limit)`, i.e. drop then take. -/
def ListRes._paginate (self : ListRes A E B Er) (args : Option A)
    (queryset : Option (List E)) : Except String (List E) :=
  match self.pagination_class with
  | none => Except.error (pagination_assert_message self.className)
  | some pag =>
    let pagination_parameters := pag args
    match queryset with
    | some qs =>
      Except.ok ((qs.drop pagination_parameters.1).take pagination_parameters.2)
    | none =>
      match self.toGenericRes.get_queryset with
      | Except.error e => Except.error e
      | Except.ok qs =>
        Except.ok ((qs.drop pagination_parameters.1).take pagination_parameters.2)

/-- Embeds `ListAPIResource.get` (base.py lines 126-150): obtains the base
queryset, paginates it iff a `pagination_class` is declared, dumps the
collection with `many=True`, and answers 400 with the error payload when the
dump reports errors, else 200 with the serialized data. -/
def ListRes.get (self : ListRes A E B Er) (pagination_args : Option A) :
    Except String (Response (Sum (List Er) B)) :=
  match self.toGenericRes.get_queryset with
  | Except.error e => Except.error e
  | Except.ok queryset =>
    let paginated : Except String (List E) :=
      match self.pagination_class with
      | some _ => self._paginate pagination_args (some queryset)
      | none => Except.ok queryset
    match paginated with
    | Except.error e => Except.error e
    | Except.ok queryset =>
      let collection := self.schema_dump queryset
      if !collection.errors.isEmpty then
        Except.ok (jsonify (Sum.inl collection.errors) 400)
      else
        Except.ok (jsonify (Sum.inr collection.data) 200)

/-- Specification-level description of the collection `ListAPIResource.get`
serializes: the base queryset with offset and limit applied iff a pagination
class is declared. Used only in theorem statements, to be compared with what
the embedded handler computes. -/
def appliedQueryset (self : ListRes A E B Er) (args : Option A) (qs : List E) : List E :=
  match self.pagination_class with
  | some pag => (qs.drop (pag args).1).take (pag args).2
  | none => qs

/-- Specification-level description of the response `ListAPIResource.get`
builds from a dump result: 400 with the errors when any are reported, else
200 with the data. Used only in theorem statements. -/
def dumpResponse (collection : DumpResult B Er) : Response (Sum (List Er) B) :=
  if !collection.errors.isEmpty then jsonify (Sum.inl collection.errors) 400
  else jsonify (Sum.inr collection.data) 200

/-- State of the database session: the committed rows, and the integrity
constraint, modelled as a function answering, for an entity about to be
inserted, the message of the `IntegrityError` the insert would raise, or
none when the insert is admissible. -/
structure DBState (E : Type) where
  rows : List E
  integrityError : E → Option String

/-- Models the transactional block `with db.session.begin(): db.session.add(obj)`
(base.py lines 249-250): on an integrity conflict the transaction rolls back
and the error is raised with its message; otherwise the new row is committed. -/
def DBState.commitAdd (db : DBState E) (obj : E) : Except String (DBState E) :=
  match db.integrityError obj with
  | some msg => Except.error msg
  | none => Except.ok { db with rows := db.rows ++ [obj] }

/-- An abort raised through `http_exceptions.abort(code, message)`. -/
inductive HttpAbort where
  | abort (code : Nat) (message : String)
  deriving DecidableEq, Repr

/-- Runtime view of a `CreateAPIResource` (base.py lines 215-257): `model`
models the entity constructor `self.model(**args)`. -/
structure CreateRes (A E : Type) where
  model : A → E

/-- Embeds `CreateAPIResource.post` (base.py lines 242-257): constructs the
entity from the validated arguments, adds it inside a scoped transaction, and
on an `IntegrityError` aborts with 409 and the error message (the session
state reverting to its pre-request value); otherwise returns the committed
entity. The result pairs the final session state with the outcome. -/
def CreateRes.post (self : CreateRes A E) (db : DBState E) (args : A) :
    DBState E × Except HttpAbort E :=
  let obj := self.model args
  match db.commitAdd obj with
  | Except.error msg => (db, Except.error (HttpAbort.abort 409 msg))
  | Except.ok db2 => (db2, Except.ok obj)

/-- HTTP verbs a generated resource defines (the entries of `target.methods`
consulted by `GenericResource._document_resource`). -/
inductive Verb where
  | get
  | post
  deriving DecidableEq, Repr

/-- Decorator st currently applied to each verb handler of a resource
class, outermost decorator first; `setattr(target, m, decorator(handler))`
prepends the decorator to the stack of verb `m`. -/
structure VerbStacks (D : Type) where
  get : List D
  post : List D
  deriving DecidableEq, Repr

/-- One `setattr(target, method_name, decorator(...))` step of
`GenericResource._document_resource` (base.py lines 64-69). -/
def wrapVerb (d : D) (v : Verb) (st : VerbStacks D) : VerbStacks D :=
  match v with
  | Verb.get => { st with get := d :: st.get }
  | Verb.post => { st with post := d :: st.post }

/-- The `decorators_to_apply` list built by `GenericResource._document_resource`
(base.py lines 50-57): one `namespace.permission_required(permission())`
decorator per declared permission class (the `parameters` block is commented
out in the source). -/
def genericPermissionDecorators (cls : ResourceCls P Pm R) : List (Deco P R Pm) :=
  cls.permission_classes.map (fun perm => Deco.permission_required (perm ()))

/-- Embeds the decorator-application loop of
`GenericResource._document_resource` (base.py lines 64-69): every decorator is
wrapped, in declaration order, around every verb handler the target defines. -/
def generic_document_resource (decorators_to_apply : List D) (methods : List Verb)
    (st : VerbStacks D) : VerbStacks D :=
  decorators_to_apply.foldl
    (fun st decorator =>
      methods.foldl (fun st v => wrapVerb decorator v st) st)
    st

/-- Embeds `ListAPIResource._document_resource` (base.py lines 108-124): first
the generic permission-application step over the single verb `get`, then the
metadata-driven chain `bulk_decorate(cls._get_method_decorators(namespace))`
wrapped around `cls.get` (prepending the chain, first entry outermost). -/
def list_document_resource (cls : ResourceCls P Pm R)
    (st : VerbStacks (Deco P R Pm)) : VerbStacks (Deco P R Pm) :=
  let st := generic_document_resource (genericPermissionDecorators cls) [Verb.get] st
  { st with get := _get_method_decorators cls ++ st.get }

/-- A Python runtime error surfaced by the registration code. -/
inductive PyError where
  | attributeError (name : String)
  deriving DecidableEq, Repr

/-- Attribute names defined on `CreateAPIResource` instances by the source
(class body of `CreateAPIResource`, base.py lines 215-294, together with the
attributes inherited from `GenericResource`, base.py lines 28-95). -/
def createAPIResourceAttrNames : List String :=
  ["model", "schema", "parameters", "permission_classes",
   "_document_resource", "get_queryset", "get_schema", "get_parameters",
   "post", "post_method_settings", "_post_method_decorators"]

/-- Models a Python attribute lookup: the name itself on success, an
`AttributeError` naming the missing attribute on failure. -/
def getattrName (names : List String) (name : String) : Except PyError String :=
  if names.contains name then Except.ok name
  else Except.error (PyError.attributeError name)

/-- Embeds `CreateAPIResource._document_resource` (base.py lines 223-240):
first the generic permission-application step over the single verb `post`;
then the source looks up `instance._post_method_decoratos` (base.py line 236)
on a fresh instance — an attribute the class does not define (the method
defined at line 284 is spelled `_post_method_decorators`); were the lookup to
succeed, the resulting chain would be wrapped around `cls.post`. -/
def create_document_resource (cls : ResourceCls P Pm R)
    (st : VerbStacks (Deco P R Pm)) : Except PyError (VerbStacks (Deco P R Pm)) :=
  let st := generic_document_resource (genericPermissionDecorators cls) [Verb.post] st
  match getattrName createAPIResourceAttrNames "_post_method_decoratos" with
  | Except.error e => Except.error e
  | Except.ok _ =>
    Except.ok { st with post := _post_method_decorators cls ++ st.post }

/-- Embeds `ListCreateAPIResource._document_resource` (base.py lines 302-323):
the call to `GenericResource._document_resource` is commented out in the
source (base.py line 311); the `get` handler is wrapped with the List
metadata chain and the `post` handler with the Create metadata chain, and
nothing else. -/
def list_create_document_resource (cls : ResourceCls P Pm R)
    (st : VerbStacks (Deco P R Pm)) : VerbStacks (Deco P R Pm) :=
  { get := _get_method_decorators cls ++ st.get,
    post := _post_method_decorators cls ++ st.post }

/-- Tests whether a decorator is a permission-check decorator. -/
def isPermissionDeco (d : Deco P R Pm) : Bool :=
  match d with
  | Deco.permission_required _ => true
  | _ => false

/-- Number of permission-check decorators in a decorator stack. -/
def permissionCount (decos : List (Deco P R Pm)) : Nat :=
  (decos.filter isPermissionDeco).length


/-- Concrete resource class with no pagination class, no parameters and no
permission classes (the minimal declaration: a model and a schema only). -/
def c1BareCls : ResourceCls Nat Nat Nat :=
  { schemaMany := 0, schemaOne := 1, pagination_class := none,
    parameters := none, permission_classes := [] }

/-- Concrete resource class declaring one permission class and nothing else. -/
def c1PermCls : ResourceCls Nat Nat Nat :=
  { schemaMany := 0, schemaOne := 1, pagination_class := none,
    parameters := none, permission_classes := [fun _ => 3] }

/-- Concrete create resource whose model constructor renders the argument. -/
def c3Res : CreateRes Nat String :=
  { model := fun n => toString n }

/-- Concrete session state holding one row and whose integrity constraint
rejects a second insert of that row. -/
def c3Db : DBState String :=
  { rows := ["1"],
    integrityError := fun e =>
      if e = "1" then some "UNIQUE constraint failed: widget.name" else none }

/-- Concrete model with two stored entities. -/
def c4Model : Model Nat := { query := [10, 20] }

/-- Concrete list resource whose schema dump always reports an error. -/
def c4ResErr : ListRes Nat Nat Nat String :=
  { className := "WidgetList", model := some c4Model,
    schema_dump := fun _ => { data := 0, errors := ["dump failed"] },
    pagination_class := none }

/-- Concrete list resource whose schema dump reports no errors and serializes
the collection to its length. -/
def c4ResOk : ListRes Nat Nat Nat String :=
  { className := "WidgetList", model := some c4Model,
    schema_dump := fun qs => { data := qs.length, errors := [] },
    pagination_class := none }

/-- Concrete model with five stored entities. -/
def c6Model : Model Nat := { query := [0, 1, 2, 3, 4] }

/-- Concrete pagination validator returning offset 1 and limit 2 for every
argument. -/
def c6Pag : Option Nat → Nat × Nat := fun _ => (1, 2)

/-- Concrete paginated list resource whose schema dump is the identity. -/
def c6Res : ListRes Nat Nat (List Nat) String :=
  { className := "TeamList", model := some c6Model,
    schema_dump := fun qs => { data := qs, errors := [] },
    pagination_class := some c6Pag }

/-- Concrete resource class declaring both a pagination class and parameters. -/
def c7PagCls : ResourceCls Nat Nat Nat :=
  { schemaMany := 0, schemaOne := 1, pagination_class := some (fun _ => 2),
    parameters := some (fun _ => 5), permission_classes := [] }

/-- Concrete resource class declaring parameters but no pagination class. -/
def c7ParCls : ResourceCls Nat Nat Nat :=
  { schemaMany := 0, schemaOne := 1, pagination_class := none,
    parameters := some (fun _ => 5), permission_classes := [] }

/-- Concrete resource class declaring neither a pagination class nor
parameters (but a permission class, which must not produce a parameters
entry). -/
def c7BareCls : ResourceCls Nat Nat Nat :=
  { schemaMany := 0, schemaOne := 1, pagination_class := none,
    parameters := none, permission_classes := [fun _ => 3] }

/-- Concrete composite resource class declaring parameters and one permission
class. -/
def c8Cls : ResourceCls Nat Nat Nat :=
  { schemaMany := 0, schemaOne := 1, pagination_class := none,
    parameters := some (fun _ => 2), permission_classes := [fun _ => 3] }

/-- Concrete generic resource with no declared model. -/
def c9NoneRes : GenericRes Nat := { className := "TeamList", model := none }

/-- Concrete generic resource with a declared model holding one entity. -/
def c9SomeRes : GenericRes Nat :=
  { className := "TeamList", model := some { query := [5] } }

/-- Concrete list resource with no pagination class. -/
def c10Res : ListRes Nat Nat Nat String :=
  { className := "UserList", model := some { query := [7, 8] },
    schema_dump := fun qs => { data := qs.length, errors := [] },
    pagination_class := none }

/-- Helper: with a declared model, the embedded list handler answers exactly
the dump response of the (possibly paginated) collection. -/
theorem listRes_get_eq_dumpResponse {A E B Er : Type} (self : ListRes A E B Er)
    (args : Option A) (m : Model E) (hm : self.toGenericRes.model = some m) :
    self.get args =
      Except.ok (dumpResponse (self.schema_dump (appliedQueryset self args m.query))) := by
  simp only [appliedQueryset]
  cases hp : self.pagination_class with
  | none =>
    simp [ListRes.get, GenericRes.get_queryset, hm, hp, dumpResponse, apply_ite]
    split <;> simp_all
  | some pag =>
    simp [ListRes.get, GenericRes.get_queryset, hm, hp, dumpResponse,
      ListRes._paginate, apply_ite]
    split <;> simp_all

/-- C5: `bulk_decorate [d1, ..., dn] f = d1 (d2 (... (dn f)))` — decorators
are applied in reverse declaration order, hence the first-listed decorator is
the outermost wrapper and executes first on a call. -/
theorem c5_bulk_decorate_first_listed_outermost {α : Type}
    (decorators : List (α → α)) (func : α) :
    bulk_decorate decorators func = decorators.foldr (fun d g => d g) func ∧
    ∀ d : α → α, bulk_decorate (d :: decorators) func = d (bulk_decorate decorators func) := by
  have key : ∀ (ds : List (α → α)) (f : α),
      bulk_decorate ds f = ds.foldr (fun d g => d g) f := by
    intro ds f
    simp [bulk_decorate, List.foldl_reverse]
  exact ⟨key decorators func, fun d => by rw [key, key, List.foldr_cons]⟩

/-- C9: `GenericResource.get_queryset` fails with the construction-time
assertion message exactly when `model` is null, and otherwise returns the
full queryable collection `model.query`. -/
theorem c9_get_queryset_assert_iff_no_model {E : Type} (self : GenericRes E) :
    (self.model = none ↔
        self.get_queryset = Except.error (queryset_assert_message self.className)) ∧
    (∀ m, self.model = some m → self.get_queryset = Except.ok m.query) := by
  refine ⟨⟨fun h => ?_, fun h => ?_⟩, fun m hm => ?_⟩
  · simp [GenericRes.get_queryset, h]
  · cases hm : self.model with
    | none => rfl
    | some m => simp [GenericRes.get_queryset, hm] at h
  · simp [GenericRes.get_queryset, hm]

/-- C9 witness: evaluates `get_queryset` at a resource without a model and at
one with a model. -/
theorem c9_get_queryset_witness :
    GenericRes.get_queryset c9NoneRes =
      Except.error (queryset_assert_message "TeamList") ∧
    GenericRes.get_queryset c9SomeRes = Except.ok [5] :=
  ⟨(c9_get_queryset_assert_iff_no_model c9NoneRes).1.mp rfl,
   (c9_get_queryset_assert_iff_no_model c9SomeRes).2 { query := [5] } rfl⟩

/-- C10: with no declared `pagination_class`, the embedded list handler never
consults its `pagination_args` argument: any two argument values produce the
same response. -/
theorem c10_get_independent_of_pagination_args {A E B Er : Type}
    (self : ListRes A E B Er) (h : self.pagination_class = none) (a b : Option A) :
    self.get a = self.get b := by
  simp [ListRes.get, h]

/-- C10 witness: a malformed argument and a null argument produce the same
response on a concrete resource without a pagination class. -/
theorem c10_get_independent_witness :
    ListRes.get c10Res (some 99) = ListRes.get c10Res none :=
  c10_get_independent_of_pagination_args c10Res rfl (some 99) none

/-- C1: refuted. The claim states that the generated decorator list always
equals the response entries, then the parameters entry when present, then the
permission entries when present. On the source, the Python
conditional-expression precedence in `_get_method_decorators` and
`_post_method_decorators` makes the whole right-hand side a single
conditional: at a resource with neither parameters nor permissions both
generated lists are empty although two response entries exist, and at a
resource with permissions only, the list consists of the permission entries
alone, not led by the response entries. -/
theorem c1_decorator_lists_drop_entries :
    _get_method_decorators c1BareCls = ([] : List (Deco Nat Nat Nat)) ∧
    (get_method_input_output_settings c1BareCls).response_schemas =
      [Deco.response (some 400) none, Deco.response none (some 0)] ∧
    _post_method_decorators c1BareCls = ([] : List (Deco Nat Nat Nat)) ∧
    (post_method_settings c1BareCls).response_schemas =
      [{ code := 400, model := none }, { code := 200, model := some 1 }] ∧
    _get_method_decorators c1PermCls = [Deco.permission_required 3] :=
  ⟨rfl, rfl, rfl, rfl, rfl⟩

/-- C2: refuted on the source. `CreateAPIResource._document_resource` looks
up `instance._post_method_decoratos` (base.py line 236), a name the class
does not define (the method is spelled `_post_method_decorators`, line 284),
so registration raises an `AttributeError` instead of wrapping `post` with
the decorator chain. -/
theorem c2_create_document_resource_attribute_error {P Pm R : Type}
    (cls : ResourceCls P Pm R) (st : VerbStacks (Deco P R Pm)) :
    create_document_resource cls st =
      Except.error (PyError.attributeError "_post_method_decoratos") := rfl

/-- C3: on an integrity conflict, `CreateAPIResource.post` aborts with 409
carrying the conflict message and leaves the session state unchanged;
otherwise the entity is committed (appended to the rows) and returned. -/
theorem c3_post_conflict_aborts_409_else_commits {A E : Type}
    (self : CreateRes A E) (db : DBState E) (args : A) :
    (∀ msg, db.integrityError (self.model args) = some msg →
        self.post db args = (db, Except.error (HttpAbort.abort 409 msg))) ∧
    (db.integrityError (self.model args) = none →
        self.post db args =
          ({ rows := db.rows ++ [self.model args], integrityError := db.integrityError },
            Except.ok (self.model args))) := by
  constructor
  · intro msg h
    simp [CreateRes.post, DBState.commitAdd, h]
  · intro h
    simp [CreateRes.post, DBState.commitAdd, h]

/-- C3 witness: a conflicting insert aborts with 409 and the session keeps its
single row; a fresh insert commits and is returned. -/
theorem c3_post_witness :
    CreateRes.post c3Res c3Db 1 =
      (c3Db, Except.error (HttpAbort.abort 409 "UNIQUE constraint failed: widget.name")) ∧
    CreateRes.post c3Res c3Db 2 =
      ({ rows := c3Db.rows ++ ["2"], integrityError := c3Db.integrityError },
        Except.ok "2") :=
  ⟨(c3_post_conflict_aborts_409_else_commits c3Res c3Db 1).1
      "UNIQUE constraint failed: widget.name" rfl,
   (c3_post_conflict_aborts_409_else_commits c3Res c3Db 2).2 rfl⟩

/-- C4: with a declared model, `ListAPIResource.get` answers 400 with the
error payload when the many-dump of the (possibly paginated) collection
reports errors, and 200 with the serialized data when it reports none. -/
theorem c4_list_get_status_from_dump_errors {A E B Er : Type}
    (self : ListRes A E B Er) (args : Option A) (m : Model E)
    (hm : self.toGenericRes.model = some m) :
    ((self.schema_dump (appliedQueryset self args m.query)).errors ≠ [] →
        self.get args =
          Except.ok
            (jsonify (Sum.inl (self.schema_dump (appliedQueryset self args m.query)).errors) 400)) ∧
    ((self.schema_dump (appliedQueryset self args m.query)).errors = [] →
        self.get args =
          Except.ok
            (jsonify (Sum.inr (self.schema_dump (appliedQueryset self args m.query)).data) 200)) := by
  constructor
  · intro h
    rw [listRes_get_eq_dumpResponse self args m hm]
    simp [dumpResponse, h]
  · intro h
    rw [listRes_get_eq_dumpResponse self args m hm]
    simp [dumpResponse, h]

/-- C4 witness: a resource whose dump reports an error answers 400 with the
error payload; one whose dump succeeds answers 200 with the data. -/
theorem c4_list_get_witness :
    ListRes.get c4ResErr none = Except.ok (jsonify (Sum.inl ["dump failed"]) 400) ∧
    ListRes.get c4ResOk none = Except.ok (jsonify (Sum.inr 2) 200) :=
  ⟨(c4_list_get_status_from_dump_errors c4ResErr none c4Model rfl).1 (by decide),
   (c4_list_get_status_from_dump_errors c4ResOk none c4Model rfl).2 rfl⟩

/-- C6: with a declared pagination class validating the arguments to
`(offset, limit)`, `_paginate` applies `.offset(offset).limit(limit)` to the
base queryset; the resulting collection has at most `limit` items and its
item at index `i` is the base item at logical position `offset + i`; and the
handler serializes exactly that collection. -/
theorem c6_pagination_applies_offset_limit {A E B Er : Type}
    (self : ListRes A E B Er) (args : Option A) (pag : Option A → Nat × Nat)
    (m : Model E) (hpag : self.pagination_class = some pag)
    (hm : self.toGenericRes.model = some m) :
    self._paginate args (some m.query) =
        Except.ok ((m.query.drop (pag args).1).take (pag args).2) ∧
    ((m.query.drop (pag args).1).take (pag args).2).length ≤ (pag args).2 ∧
    (∀ i : Nat, ((m.query.drop (pag args).1).take (pag args).2)[i]? =
        if i < (pag args).2 then m.query[(pag args).1 + i]? else none) ∧
    self.get args =
        Except.ok (dumpResponse (self.schema_dump
          ((m.query.drop (pag args).1).take (pag args).2))) := by
  refine ⟨?_, ?_, ?_, ?_⟩
  · simp [ListRes._paginate, hpag]
  · rw [List.length_take]
    exact min_le_left _ _
  · intro i
    by_cases hi : i < (pag args).2
    · rw [if_pos hi, List.getElem?_take_of_lt hi, List.getElem?_drop]
    · rw [if_neg hi]
      apply List.getElem?_eq_none
      calc ((m.query.drop (pag args).1).take (pag args).2).length
          ≤ (pag args).2 := by rw [List.length_take]; exact min_le_left _ _
        _ ≤ i := Nat.le_of_not_lt hi
  · rw [listRes_get_eq_dumpResponse self args m hm]
    simp [appliedQueryset, hpag]

/-- C6 witness: five stored entities, offset 1 and limit 2 produce the slice
`[1, 2]`, and the handler answers 200 with exactly that slice. -/
theorem c6_pagination_witness :
    ListRes._paginate c6Res none (some c6Model.query) = Except.ok [1, 2] ∧
    ListRes.get c6Res none = Except.ok (jsonify (Sum.inr [1, 2]) 200) :=
  ⟨(c6_pagination_applies_offset_limit c6Res none c6Pag c6Model rfl rfl).1,
   (c6_pagination_applies_offset_limit c6Res none c6Pag c6Model rfl rfl).2.2.2⟩

/-- C7: the list settings carry at most one parameters validator (an optional
field): sourced from the pagination class when one is declared (even when
separate parameters are also declared), else from the declared parameters,
and absent when neither is declared. -/
theorem c7_parameters_entry_precedence {P Pm R : Type} (cls : ResourceCls P Pm R) :
    (∀ pag, cls.pagination_class = some pag →
        (get_method_input_output_settings cls).parameters =
          some (Deco.parameters (pag ()))) ∧
    (∀ par, cls.pagination_class = none → cls.parameters = some par →
        (get_method_input_output_settings cls).parameters =
          some (Deco.parameters (par ()))) ∧
    (cls.pagination_class = none → cls.parameters = none →
        (get_method_input_output_settings cls).parameters = none) := by
  refine ⟨fun pag hpag => ?_, fun par hpag hpar => ?_, fun hpag hpar => ?_⟩
  · by_cases hpc : cls.permission_classes.isEmpty <;>
      simp [get_method_input_output_settings, hpag, hpc]
  · by_cases hpc : cls.permission_classes.isEmpty <;>
      simp [get_method_input_output_settings, hpag, hpar, hpc]
  · by_cases hpc : cls.permission_classes.isEmpty <;>
      simp [get_method_input_output_settings, hpag, hpar, hpc]

/-- C7 witness: pagination declared together with parameters yields the
pagination-sourced entry; parameters alone yield the parameters-sourced
entry; neither yields none (even with permissions declared). -/
theorem c7_parameters_witness :
    (get_method_input_output_settings c7PagCls).parameters = some (Deco.parameters 2) ∧
    (get_method_input_output_settings c7ParCls).parameters = some (Deco.parameters 5) ∧
    (get_method_input_output_settings c7BareCls).parameters = none :=
  ⟨(c7_parameters_entry_precedence c7PagCls).1 _ rfl,
   (c7_parameters_entry_precedence c7ParCls).2.1 _ rfl rfl,
   (c7_parameters_entry_precedence c7BareCls).2.2 rfl rfl⟩

/-- C8: partially refuted. The composite `_document_resource` indeed skips
the generic apply-permissions-to-every-verb step (the embedding applies the
two metadata chains and nothing else), but declared permission checks do not
end up wrapped exactly once around each verb: at a composite resource
declaring parameters and one permission class, both generated chains contain
zero permission decorators, because the conditional-expression precedence in
the chain builders drops the permission entries whenever a parameters entry
is present. -/
theorem c8_composite_chains_drop_permission_wrapping :
    (list_create_document_resource c8Cls { get := [], post := [] }).get =
      [Deco.response (some 400) none, Deco.response none (some 0), Deco.parameters 2] ∧
    (list_create_document_resource c8Cls { get := [], post := [] }).post =
      [Deco.response (some 400) none, Deco.response (some 200) (some 1), Deco.parameters 2] ∧
    permissionCount (list_create_document_resource c8Cls { get := [], post := [] }).get = 0 ∧
    permissionCount (list_create_document_resource c8Cls { get := [], post := [] }).post = 0 ∧
    c8Cls.permission_classes.length = 1 :=
  ⟨rfl, rfl, rfl, rfl, rfl⟩
